import Mathlib

/-!
# Storage Dehogger — verification of the core components

Shallow embedding of the core of `src/main.py` (SarahIsWeird/storagedehogger):
the recursive file-tree builder `get_file_tree`, the node model (`File` /
`Folder`, modelled as a tagged variant as the data model prescribes), the size
formatter `FileSizeRenderer.pretty_print_size`, and the sorted-view adapter
operations `FolderTreeViewModel.Compare` and `FolderTreeViewModel.GetChildren`.

The filesystem is modelled as the tree of answers the OS calls would give:
each directory entry carries the outcome of the syscalls the builder performs
on it (`is_file`/`is_dir` classification, `stat`, `scandir`).  Python
exceptions become an `Except` error channel; `except PermissionError:
continue` becomes catching exactly the `permissionDenied` error.

Python object references (the `parent` field holds a reference to a `Node`
object, or `None`) are modelled by a type parameter `π`: the builder stores
and threads parent references exactly as the source does, without ever
inspecting them, so it is polymorphic in the reference type.  For concrete
trees we instantiate `π := NodeRef`, where a node is referred to by its path
of names from the root (distinct nodes in one tree have distinct paths, so
this is a faithful encoding of object identity within a tree).
-/

/-- Errors the traversal can encounter.  `permissionDenied` models Python's
`PermissionError`; the other constructors model the remaining `OSError`
classes (`FileNotFoundError`, `OSError`/IO errors) which `get_file_tree`
does not catch. -/
inductive FsError where
  | permissionDenied
  | notFound
  | ioError
deriving DecidableEq, Repr

/-- One directory entry as the builder observes it, carrying the outcomes of
the syscalls performed on it:
* `fileEntry name stat` — `entry.is_file(follow_symlinks=False)` is true;
  `stat` is the outcome of `entry.stat().st_size`;
* `dirEntry name listing` — `is_file` is false, `is_dir(follow_symlinks=False)`
  is true; `listing` is the outcome of `os.scandir` on the entry's path;
* `otherEntry name` — neither a regular file nor a directory (device, socket,
  symlink, ...): the builder silently skips it;
* `badEntry name e` — classifying the entry (`is_file`) itself raises `e`. -/
inductive FsEntry where
  | fileEntry (name : String) (stat : Except FsError Nat)
  | dirEntry (name : String) (listing : Except FsError (List FsEntry))
  | otherEntry (name : String)
  | badEntry (name : String) (e : FsError)
deriving Repr

/-- The node model of `main.py`: class `File` (fields `parent`, `path`,
`size`) and its subclass `Folder` (adds `children`), rendered as a closed
tagged variant.  `π` is the type of parent references. -/
inductive FNode (π : Type) where
  | file (parent : π) (path : String) (size : Nat)
  | folder (parent : π) (path : String) (size : Nat) (children : List (FNode π))
deriving Repr

/-- A node reference for concrete trees: the path of names from the root
(`[]` refers to the root itself), or `none` for Python's `None`. -/
abbrev NodeRef := Option (List String)

/-- `node.path`. -/
def nodePath {π : Type} : FNode π → String
  | .file _ p _ => p
  | .folder _ p _ _ => p

/-- `node.size`. -/
def nodeSize {π : Type} : FNode π → Nat
  | .file _ _ s => s
  | .folder _ _ s _ => s

/-- `node.parent`. -/
def nodeParent {π : Type} : FNode π → π
  | .file pr _ _ => pr
  | .folder pr _ _ _ => pr

mutual

/-- `get_file_tree(name, root, parent)` from `main.py` lines 33–51.
`listing` is the outcome of `os.scandir(root)`; an error there is not caught
in this frame and propagates to the caller.  On success the frame walks the
entries, accumulating `total` and `files`, and returns
`Folder(parent, name, total, files)`. -/
def get_file_tree {π : Type} (name : String) (listing : Except FsError (List FsEntry))
    (parent : π) : Except FsError (FNode π) :=
  match listing with
  | .error e => .error e
  | .ok entries =>
    match walkEntries parent entries with
    | .error e => .error e
    | .ok (total, files) => .ok (.folder parent name total files)

/-- The `for entry in it:` loop of `get_file_tree` (lines 38–49), returning
the accumulated `(total, files)`.  Each iteration body runs under
`try: ... except PermissionError: continue`: a `permissionDenied` raised by
`stat`, by classification, or out of the recursive call (i.e. by the
subdirectory's own `scandir`) skips that entry; any other error propagates
out of the loop uncaught. -/
def walkEntries {π : Type} (parent : π) : List FsEntry → Except FsError (Nat × List (FNode π))
  | [] => .ok (0, [])
  | .fileEntry nm st :: rest =>
    match st with
    | .ok size =>
      match walkEntries parent rest with
      | .error e => .error e
      | .ok (total, files) => .ok (size + total, .file parent nm size :: files)
    | .error .permissionDenied => walkEntries parent rest
    | .error e => .error e
  | .dirEntry nm lst :: rest =>
    match get_file_tree nm lst parent with
    | .ok fo =>
      match walkEntries parent rest with
      | .error e => .error e
      | .ok (total, files) => .ok (nodeSize fo + total, fo :: files)
    | .error .permissionDenied => walkEntries parent rest
    | .error e => .error e
  | .otherEntry _ :: rest => walkEntries parent rest
  | .badEntry _ e :: rest =>
    match e with
    | .permissionDenied => walkEntries parent rest
    | e => .error e

end

/-! ## Invariant checkers over built trees -/

/-- Sum of the `size` fields of a list of nodes. -/
def sumSizes {π : Type} : List (FNode π) → Nat
  | [] => 0
  | n :: ns => nodeSize n + sumSizes ns

mutual

/-- The aggregation invariant: every container's `size` equals the sum of its
children's `size` fields, recursively at every level. -/
def sizeInvariant {π : Type} : FNode π → Bool
  | .file .. => true
  | .folder _ _ sz cs => (sz == sumSizes cs) && sizeInvariantList cs

/-- `sizeInvariant` on every node of a list. -/
def sizeInvariantList {π : Type} : List (FNode π) → Bool
  | [] => true
  | n :: ns => sizeInvariant n && sizeInvariantList ns

end

mutual

/-- Checks, for a node whose own reference is `self`, that every child in the
subtree below it has `parent = some` (the reference of the node whose
`children` list contains it). -/
def childrenLinked (self : List String) : FNode NodeRef → Bool
  | .file .. => true
  | .folder _ _ _ cs => childrenLinkedList self cs

/-- `childrenLinked` over a children list: each child's `parent` must refer
to the container `self`, and its own subtree must be linked in turn. -/
def childrenLinkedList (self : List String) : List (FNode NodeRef) → Bool
  | [] => true
  | c :: cs =>
    decide (nodeParent c = some self) && childrenLinked (self ++ [nodePath c]) c
      && childrenLinkedList self cs

end

/-- The parent-linkage invariant claimed for built trees: the root's `parent`
is absent, and every non-root node's `parent` refers to exactly the container
whose `children` list contains it. -/
def parentInvariant (t : FNode NodeRef) : Bool :=
  decide (nodeParent t = none) && childrenLinked [] t

/-! ## Sorted view adapter (`FolderTreeViewModel`, lines 102–177) -/

/-- Python's `<` on `str`, on the underlying code-point lists: lexicographic
by code point, with a strict prefix ordered before its extensions. -/
def pyCharListLt : List Char → List Char → Bool
  | _, [] => false
  | [], _ :: _ => true
  | a :: as, b :: bs =>
    if a.toNat < b.toNat then true
    else if b.toNat < a.toNat then false
    else pyCharListLt as bs

/-- Python's `a > b` on `str`: `b < a` code-point-lexicographically. -/
def pyStrGt (a b : String) : Bool := pyCharListLt b.data a.data

/-- `FolderTreeViewModel.Compare(item1, item2, column, ascending)`
(lines 110–117): if sorting by column 0 or the sizes are equal, compare by
`path` (Python `file1.path > file2.path`), otherwise by `size`; the result
is `1` when `ascending` agrees with the greater-than test and `-1`
otherwise.  A negative result orders `file1` before `file2`. -/
def Compare {π : Type} (file1 file2 : FNode π) (column : Nat) (ascending : Bool) : Int :=
  if column == 0 || nodeSize file1 == nodeSize file2 then
    if ascending == pyStrGt (nodePath file1) (nodePath file2) then 1 else -1
  else
    if ascending == decide (nodeSize file1 > nodeSize file2) then 1 else -1

/-- The comparator as the spec words it: a two-level comparator — name
lexicographically when sorting by column 0 or on a size tie, size numerically
otherwise — whose result sign flips with `ascending`. -/
def compareSpec {π : Type} (file1 file2 : FNode π) (column : Nat) (ascending : Bool) : Int :=
  let dir : Int := if ascending then 1 else -1
  if column == 0 || nodeSize file1 == nodeSize file2 then
    dir * (if pyStrGt (nodePath file1) (nodePath file2) then 1 else -1)
  else
    dir * (if nodeSize file1 > nodeSize file2 then 1 else -1)

/-- Python errors of the view model that are not filesystem errors:
`AttributeError` from accessing a missing attribute. -/
inductive PyError where
  | attributeError
deriving DecidableEq, Repr

/-- Accessing `node.children`:  a `Folder` has the attribute, a plain `File`
does not (class `File` defines only `parent`, `path`, `size`), so the access
raises `AttributeError`. -/
def childrenAttr {π : Type} : FNode π → Except PyError (List (FNode π))
  | .folder _ _ _ cs => .ok cs
  | .file .. => .error .attributeError

/-- `FolderTreeViewModel.GetChildren(parent, children)` (lines 125–136):
for the null item it reports `self.data`; otherwise it reads
`self.ItemToObject(parent).children`.  It appends each node to the output
list and returns the count; we model the pair (appended nodes, returned
count). -/
def GetChildren {π : Type} (data : List (FNode π)) (parent : Option (FNode π)) :
    Except PyError (List (FNode π) × Nat) :=
  match parent with
  | none => .ok (data, data.length)
  | some node =>
    match childrenAttr node with
    | .error e => .error e
    | .ok cs => .ok (cs, cs.length)

/-! ## Size formatter (`FileSizeRenderer.pretty_print_size`, lines 77–99) -/

/-- Renders `num / den` with exactly two decimal places, as Python's
`f'{tmp:.2f}'` does: round half-to-even to the nearest hundredth, then print
`<integer part>.<two fractional digits>`.  The source divides in IEEE double
precision before formatting; on every input appearing in the claims the
double's decimal expansion and the exact rational round identically (no input
is within one part in 10^9 of a rounding tie), so the exact-rational model
agrees with the source there. -/
def twoDecimals (num den : Nat) : String :=
  let scaled := num * 100
  let q := scaled / den
  let r := scaled % den
  let rounded :=
    if den < 2 * r then q + 1
    else if 2 * r < den then q
    else if q % 2 == 0 then q else q + 1
  let whole := rounded / 100
  let frac := rounded % 100
  toString whole ++ "." ++ (if frac < 10 then "0" ++ toString frac else toString frac)

/-- `FileSizeRenderer.pretty_print_size` (lines 77–99) as a function of the
stored value: `None` renders as the empty string; `< 1000` as `"<n> bytes"`;
then successive divisions by 1000 with two-decimal formatting and units
`kB`, `MB`, `GB`.  At `10^12` and beyond every guard fails and the Python
function falls off the end, returning `None`: modelled as `none`.  The
chained float comparisons `tmp < 1000` agree with the exact integer guards
below on every integer input in range. -/
def pretty_print_size (value : Option Nat) : Option String :=
  match value with
  | none => some ""
  | some v =>
    if v < 1000 then some (toString v ++ " bytes")
    else if v < 1000000 then some (twoDecimals v 1000 ++ " kB")
    else if v < 1000000000 then some (twoDecimals v 1000000 ++ " MB")
    else if v < 1000000000000 then some (twoDecimals v 1000000000 ++ " GB")
    else none

/-- Whether a build attempt returned a tree (`True` for `ok`): the claim that
an invalid root yields an empty tree rather than a failure is the claim that
this is `true` there. -/
def buildSucceeds {π : Type} : Except FsError (FNode π) → Bool
  | .ok _ => true
  | .error _ => false

/-! ## Helper lemmas -/

/-- Python string self-comparison: `l < l` is false. -/
theorem pyCharListLt_self (l : List Char) : pyCharListLt l l = false := by
  induction l with
  | nil => rfl
  | cons a as ih => simp [pyCharListLt, ih]

/-- `s > s` is false for Python strings. -/
theorem pyStrGt_self (s : String) : pyStrGt s s = false :=
  pyCharListLt_self s.data

/-- A successful entry walk returns a total equal to the sum of the returned
nodes' sizes, and every returned subtree satisfies the aggregation
invariant.  Proved by the mutual functional induction of
`get_file_tree`/`walkEntries`. -/
theorem walk_ok_sizes {π : Type} (parent : π) (es : List FsEntry) :
    ∀ total files, walkEntries parent es = .ok (total, files) →
      total = sumSizes files ∧ sizeInvariantList files = true := by
  refine walkEntries.induct
    (fun name lst p => ∀ t, get_file_tree name lst p = .ok t → sizeInvariant t = true)
    (fun p es => ∀ total files, walkEntries p es = .ok (total, files) →
      total = sumSizes files ∧ sizeInvariantList files = true)
    ?_ ?_ ?_ ?_ ?_ ?_ ?_ ?_ ?_ ?_ ?_ ?_ ?_ ?_ ?_ parent es
  · intro name p e t h
    simp [get_file_tree] at h
  · intro name p entries e hw _ t h
    simp [get_file_tree, hw] at h
  · intro name p entries total files hw ih t h
    simp [get_file_tree, hw] at h
    subst h
    obtain ⟨h1, h2⟩ := ih total files hw
    simp [sizeInvariant, h1, h2]
  · intro p total files h
    simp [walkEntries] at h
    obtain ⟨rfl, rfl⟩ := h
    simp [sumSizes, sizeInvariantList]
  · intro p nm rest size e hw _ total files h
    simp [walkEntries, hw] at h
  · intro p nm rest size t0 fs0 hw ih total files h
    simp [walkEntries, hw] at h
    obtain ⟨rfl, rfl⟩ := h
    obtain ⟨h1, h2⟩ := ih t0 fs0 hw
    simp [sumSizes, sizeInvariantList, sizeInvariant, nodeSize, h1, h2]
  · intro p nm rest ih total files h
    simp [walkEntries] at h
    exact ih total files h
  · intro p nm rest e hne total files h
    cases e <;> simp_all [walkEntries]
  · intro p nm lst rest fo hg e hw _ _ total files h
    simp [walkEntries, hg, hw] at h
  · intro p nm lst rest fo hg t0 fs0 hw ih1 ih2 total files h
    simp [walkEntries, hg, hw] at h
    obtain ⟨rfl, rfl⟩ := h
    obtain ⟨h1, h2⟩ := ih2 t0 fs0 hw
    have h3 := ih1 fo hg
    simp [sumSizes, sizeInvariantList, h1, h2, h3]
  · intro p nm lst rest hg _ ih total files h
    simp [walkEntries, hg] at h
    exact ih total files h
  · intro p nm lst rest e hne hg _ total files h
    cases e <;> simp_all [walkEntries]
  · intro p name rest ih total files h
    simp [walkEntries] at h
    exact ih total files h
  · intro p name rest ih total files h
    simp [walkEntries] at h
    exact ih total files h
  · intro p name rest e hne total files h
    cases e <;> simp_all [walkEntries]

/-- If one entry is a no-op for the walk (its iteration neither contributes
nor aborts), deleting it anywhere in the entry list leaves the walk's result
unchanged. -/
theorem walk_skip {π : Type} (parent : π) (x : FsEntry)
    (hx : ∀ l, walkEntries parent (x :: l) = walkEntries parent l) :
    ∀ pre post, walkEntries parent (pre ++ x :: post) = walkEntries parent (pre ++ post) := by
  intro pre post
  induction pre with
  | nil => exact hx post
  | cons a pre ih =>
    cases a with
    | fileEntry nm st =>
      rcases st with e | sz
      · cases e <;> simp only [List.cons_append, walkEntries, ih]
      · simp only [List.cons_append, walkEntries, ih]
    | dirEntry nm lst =>
      rcases hg : get_file_tree nm lst parent with e | fo
      · cases e <;> simp only [List.cons_append, walkEntries, hg, ih]
      · simp only [List.cons_append, walkEntries, hg, ih]
    | otherEntry nm => simp only [List.cons_append, walkEntries, ih]
    | badEntry nm e => cases e <;> simp only [List.cons_append, walkEntries, ih]

/-- If one entry aborts the walk with error `e`, then a walk that reaches it
(every earlier entry processed without aborting) returns `e`. -/
theorem walk_abort {π : Type} (parent : π) (x : FsEntry) (e : FsError)
    (hx : ∀ l, walkEntries parent (x :: l) = .error e) :
    ∀ pre post t0 fs0, walkEntries parent pre = .ok (t0, fs0) →
      walkEntries parent (pre ++ x :: post) = .error e := by
  intro pre post
  induction pre with
  | nil => intro t0 fs0 _; exact hx post
  | cons a pre ih =>
    intro t0 fs0 hpre
    cases a with
    | fileEntry nm st =>
      rcases st with e1 | sz
      · cases e1
        · simp only [walkEntries] at hpre
          simp only [List.cons_append, walkEntries, ih t0 fs0 hpre]
        · simp only [walkEntries] at hpre; exact absurd hpre (by simp)
        · simp only [walkEntries] at hpre; exact absurd hpre (by simp)
      · rcases hw : walkEntries parent pre with e1 | ⟨t1, f1⟩
        · simp only [walkEntries, hw] at hpre; exact absurd hpre (by simp)
        · simp only [List.cons_append, walkEntries, ih t1 f1 hw]
    | dirEntry nm lst =>
      rcases hg : get_file_tree nm lst parent with e1 | fo
      · cases e1
        · simp only [walkEntries, hg] at hpre
          simp only [List.cons_append, walkEntries, hg, ih t0 fs0 hpre]
        · simp only [walkEntries, hg] at hpre; exact absurd hpre (by simp)
        · simp only [walkEntries, hg] at hpre; exact absurd hpre (by simp)
      · rcases hw : walkEntries parent pre with e1 | ⟨t1, f1⟩
        · simp only [walkEntries, hg, hw] at hpre; exact absurd hpre (by simp)
        · simp only [List.cons_append, walkEntries, hg, ih t1 f1 hw]
    | otherEntry nm =>
      simp only [walkEntries] at hpre
      simp only [List.cons_append, walkEntries, ih t0 fs0 hpre]
    | badEntry nm e1 =>
      cases e1
      · simp only [walkEntries] at hpre
        simp only [List.cons_append, walkEntries, ih t0 fs0 hpre]
      · simp only [walkEntries] at hpre; exact absurd hpre (by simp)
      · simp only [walkEntries] at hpre; exact absurd hpre (by simp)

/-! ## Claims -/

/-- Claim C1 (code bug).  The claim says every non-root node's `parent`
refers to exactly the container whose `children` list holds it, with the
container's identity fixed at construction and passed down.  The code
instead passes the caller's `parent` argument unchanged into every `File`
and `Folder` it creates and into every recursive call (line 45 passes
`parent`, not the folder under construction), so every node of a built tree
carries the top-level `parent` argument (`None` in `AppFrame.__init__`).
Already for a root with a single file child the child's `parent` is `none`
rather than a reference to the root container, so `parentInvariant` is
false, even though `GetParent` (line 154) relies on the claimed linkage for
upward navigation, and the dead example code at lines 185–187 constructs
exactly the container-as-parent linkage the claim describes. -/
theorem c1_child_parent_not_container :
    get_file_tree "root" (.ok [.fileEntry "a" (.ok 5)]) (none : NodeRef)
      = .ok (.folder none "root" 5 [.file none "a" 5])
    ∧ parentInvariant (.folder none "root" 5 [.file none "a" 5]) = false := by
  constructor
  · simp [get_file_tree, walkEntries]
  · simp [parentInvariant, childrenLinked, childrenLinkedList, nodeParent]

/-- Claim C2 (confirmed).  Every tree returned by the builder satisfies the
aggregation invariant: each container's `size` equals the sum of its
children's `size` fields, recursively at every level. -/
theorem c2_aggregation_invariant {π : Type} (name : String)
    (listing : Except FsError (List FsEntry)) (parent : π) (t : FNode π)
    (h : get_file_tree name listing parent = .ok t) : sizeInvariant t = true := by
  rcases listing with e | entries
  · simp [get_file_tree] at h
  · rcases hw : walkEntries parent entries with e | ⟨total, files⟩
    · simp [get_file_tree, hw] at h
    · simp [get_file_tree, hw] at h
      subst h
      obtain ⟨h1, h2⟩ := walk_ok_sizes parent entries total files hw
      simp [sizeInvariant, h1, h2]

/-- Witness for C2: a concrete build (one file, one subdirectory with one
file) whose result satisfies the aggregation invariant. -/
theorem c2_aggregation_invariant_witness :
    sizeInvariant (FNode.folder (none : NodeRef) "root" 12
      [FNode.file none "a" 5, FNode.folder none "sub" 7 [FNode.file none "b" 7]]) = true :=
  c2_aggregation_invariant "root"
    (.ok [.fileEntry "a" (.ok 5), .dirEntry "sub" (.ok [.fileEntry "b" (.ok 7)])]) none _
    (by simp [get_file_tree, walkEntries, nodeSize])

/-- Counterexample to claim C3.  The claim says a subdirectory whose own
enumeration fails with a permission error still appears in its parent's
children as a container with zero children and size 0.  In the code the
`PermissionError` raised by the subdirectory's `os.scandir` propagates to
the call site inside the parent's `try` (line 45) and is caught at line 48,
so the entry is skipped entirely: here the unreadable `sub` is absent from
the result's children (which hold only the sibling file `a`). -/
theorem c3_counterexample :
    get_file_tree "root"
        (.ok [.dirEntry "sub" (.error .permissionDenied), .fileEntry "a" (.ok 7)]) (none : NodeRef)
      = .ok (.folder none "root" 7 [.file none "a" 7]) := by
  simp [get_file_tree, walkEntries]

/-- Claim C3 as amended: a subdirectory whose enumeration fails with a
permission error is skipped entirely — omitted from the parent's children
and contributing nothing to the size — and the error does not propagate:
the build result is exactly as if the entry were absent. -/
theorem c3_unreadable_subdir_omitted {π : Type} (name : String) (parent : π)
    (pre post : List FsEntry) (nm : String) :
    get_file_tree name (.ok (pre ++ .dirEntry nm (.error .permissionDenied) :: post)) parent
      = get_file_tree name (.ok (pre ++ post)) parent := by
  have h := walk_skip parent (.dirEntry nm (.error .permissionDenied))
    (fun l => by simp only [walkEntries, get_file_tree]) pre post
  simp only [get_file_tree, h]

/-- Claim C4 (confirmed).  When statting an entry (or classifying it with
`is_file`) fails with a permission error, the builder skips exactly that
entry and continues: the result — children, size, success — equals the
build of the same listing with the failing entry deleted, so every
non-failing sibling is kept, the failing entry is excluded, the total
excludes its contribution, and the failure never propagates upward. -/
theorem c4_entry_denial_skipped {π : Type} (name : String) (parent : π)
    (pre post : List FsEntry) (nm : String) :
    get_file_tree name (.ok (pre ++ .fileEntry nm (.error .permissionDenied) :: post)) parent
        = get_file_tree name (.ok (pre ++ post)) parent
    ∧ get_file_tree name (.ok (pre ++ .badEntry nm .permissionDenied :: post)) parent
        = get_file_tree name (.ok (pre ++ post)) parent := by
  constructor
  · have h := walk_skip parent (.fileEntry nm (.error .permissionDenied))
      (fun l => by simp only [walkEntries]) pre post
    simp only [get_file_tree, h]
  · have h := walk_skip parent (.badEntry nm .permissionDenied)
      (fun l => by simp only [walkEntries]) pre post
    simp only [get_file_tree, h]

/-- Counterexample to claim C5.  The claim says `format(999999) ==
"999.99 kB"`, but the code computes `999999 / 1000 = 999.999` and renders it
with `:.2f`, which rounds to two decimals: the result is `"1000.00 kB"`. -/
theorem c5_counterexample :
    pretty_print_size (some 999999) ≠ some "999.99 kB" := by decide

/-- Claim C5 as amended: the boundary values hold as claimed except
`format(999999)`, which renders as `"1000.00 kB"` (999.999 rounded to two
decimal places), and `1000^k` for k in {1,2,3} formats as `"1.00"` with unit
kB, MB, GB respectively. -/
theorem c5_formatter_boundaries :
    pretty_print_size (some 999) = some "999 bytes"
    ∧ pretty_print_size (some 1000) = some "1.00 kB"
    ∧ pretty_print_size (some 999999) = some "1000.00 kB"
    ∧ pretty_print_size (some (1000 ^ 1)) = some "1.00 kB"
    ∧ pretty_print_size (some (1000 ^ 2)) = some "1.00 MB"
    ∧ pretty_print_size (some (1000 ^ 3)) = some "1.00 GB" := by decide

/-- Claim C6 (confirmed).  `Compare` is the claimed two-level comparator:
it coincides with `compareSpec` — name-lexicographic on column 0 or on a
size tie, numeric by size otherwise, sign flipped by `ascending` — and two
equal-size nodes named "a" and "b" compared under column 1 ascending give a
negative result, i.e. "a" sorts before "b". -/
theorem c6_compare_is_two_level :
    (∀ (π : Type) (file1 file2 : FNode π) (column : Nat) (ascending : Bool),
        Compare file1 file2 column ascending = compareSpec file1 file2 column ascending)
    ∧ Compare (FNode.file (none : NodeRef) "a" 5) (FNode.file none "b" 5) 1 true = -1 := by
  constructor
  · intro π f1 f2 c a
    unfold Compare compareSpec
    cases h : (c == 0 || nodeSize f1 == nodeSize f2)
    · cases a <;> by_cases hlt : nodeSize f1 > nodeSize f2 <;> simp [hlt]
    · cases a <;> cases hlt : pyStrGt (nodePath f1) (nodePath f2) <;> simp [hlt]
  · decide

/-- Claim C7 (confirmed).  Only permission errors are recovered: if an entry
whose predecessors walked cleanly fails its stat with any other error, or a
subdirectory's recursive build fails with any other error, that error
propagates out of the builder to its caller. -/
theorem c7_other_errors_propagate {π : Type} (name : String) (parent : π)
    (pre post : List FsEntry) (nm : String) (lst : Except FsError (List FsEntry))
    (e : FsError) (t0 : Nat) (fs0 : List (FNode π))
    (hne : e ≠ .permissionDenied) (hpre : walkEntries parent pre = .ok (t0, fs0)) :
    get_file_tree name (.ok (pre ++ .fileEntry nm (.error e) :: post)) parent = .error e
    ∧ (get_file_tree nm lst parent = .error e →
        get_file_tree name (.ok (pre ++ .dirEntry nm lst :: post)) parent = .error e) := by
  constructor
  · have h := walk_abort parent (.fileEntry nm (.error e)) e
      (fun l => by cases e <;> simp_all [walkEntries]) pre post t0 fs0 hpre
    simp only [get_file_tree, h]
  · intro hg
    have h := walk_abort parent (.dirEntry nm lst) e
      (fun l => by cases e <;> simp_all [walkEntries]) pre post t0 fs0 hpre
    simp only [get_file_tree, h]

/-- Witness for C7: a file entry whose stat fails with `notFound` and a
subdirectory whose enumeration fails with `ioError` both abort the build
with that error. -/
theorem c7_witness :
    get_file_tree "root" (.ok [.fileEntry "x" (.error .notFound)]) (none : NodeRef)
        = .error .notFound
    ∧ get_file_tree "root" (.ok [.dirEntry "sub" (.error .ioError)]) (none : NodeRef)
        = .error .ioError := by
  constructor
  · exact (c7_other_errors_propagate "root" none [] [] "x" (.error .notFound) .notFound 0 []
      (by decide) (by simp [walkEntries])).1
  · exact (c7_other_errors_propagate "root" none [] [] "sub" (.error .ioError) .ioError 0 []
      (by decide) (by simp [walkEntries])).2 (by simp [get_file_tree])

/-- Counterexample to claim C8.  The claim says `GetChildren` on a file-kind
node returns the empty sequence; in the code it reads
`self.ItemToObject(parent).children`, and class `File` has no `children`
attribute, so the access raises `AttributeError` instead of returning an
empty list with count 0. -/
theorem c8_counterexample :
    GetChildren ([] : List (FNode NodeRef)) (some (.file none "a" 5))
        = .error .attributeError
    ∧ GetChildren ([] : List (FNode NodeRef)) (some (.file none "a" 5))
        ≠ .ok ([], 0) := by
  constructor
  · rfl
  · simp [GetChildren, childrenAttr]

/-- Claim C8 as amended: `GetChildren` on a container node returns its
stored children with their count, but on a file-kind node it fails with an
`AttributeError` (class `File` lacks the `children` attribute) rather than
reporting zero children. -/
theorem c8_children_of_file_raises :
    (∀ (π : Type) (data : List (FNode π)) (p : π) (nm : String) (sz : Nat),
        GetChildren data (some (.file p nm sz)) = .error .attributeError)
    ∧ (∀ (π : Type) (data : List (FNode π)) (p : π) (nm : String) (sz : Nat)
          (cs : List (FNode π)),
        GetChildren data (some (.folder p nm sz cs)) = .ok (cs, cs.length)) := by
  exact ⟨fun π data p nm sz => rfl, fun π data p nm sz cs => rfl⟩

/-- Counterexample to claim C9.  The claim says a root that cannot be
enumerated yields a zero-size, empty-children root container rather than a
failure; in the code nothing catches the error of the top-level
`os.scandir` (neither `get_file_tree` nor `AppFrame.__init__`), so the
build returns the error and does not succeed. -/
theorem c9_counterexample :
    get_file_tree "root" (.error FsError.notFound) (none : NodeRef) = .error FsError.notFound
    ∧ buildSucceeds (get_file_tree "root" (.error FsError.notFound) (none : NodeRef)) = false := by
  constructor <;> simp [get_file_tree, buildSucceeds]

/-- Claim C9 as amended: if enumerating the root path fails (not found,
permission denied, any OS error), the builder propagates exactly that error
to its caller; no empty root node is produced. -/
theorem c9_root_error_propagates {π : Type} (name : String) (e : FsError) (parent : π) :
    get_file_tree name (.error e) parent = .error e := by
  simp [get_file_tree]

/-- Claim C10 (confirmed).  `Compare` never returns 0: every comparison
returns 1 or -1, and when the two nodes are indistinguishable by both sort
keys (equal `path` and equal `size`, in particular a node compared with
itself) the result is determined by the `ascending` flag alone: -1 when
ascending, 1 when descending. -/
theorem c10_compare_never_zero :
    (∀ (π : Type) (file1 file2 : FNode π) (column : Nat) (ascending : Bool),
        Compare file1 file2 column ascending = 1 ∨ Compare file1 file2 column ascending = -1)
    ∧ (∀ (π : Type) (file1 file2 : FNode π) (column : Nat) (ascending : Bool),
        nodePath file1 = nodePath file2 → nodeSize file1 = nodeSize file2 →
        Compare file1 file2 column ascending = if ascending then -1 else 1) := by
  constructor
  · intro π f1 f2 c a
    unfold Compare
    split <;> split <;> simp
  · intro π f1 f2 c a hp hs
    cases a <;> simp [Compare, hp, hs, pyStrGt_self]

/-- Witness for C10: two distinct file nodes with identical path and size
(differing only in their `parent` reference) compare to -1 under column 1
ascending — and in particular not 0. -/
theorem c10_witness :
    (Compare (FNode.file (none : NodeRef) "x" 5) (FNode.file (some []) "x" 5) 1 true = 1
      ∨ Compare (FNode.file (none : NodeRef) "x" 5) (FNode.file (some []) "x" 5) 1 true = -1)
    ∧ Compare (FNode.file (none : NodeRef) "x" 5) (FNode.file (some []) "x" 5) 1 true
        = if true then -1 else 1 :=
  ⟨c10_compare_never_zero.1 NodeRef (.file none "x" 5) (.file (some []) "x" 5) 1 true,
   c10_compare_never_zero.2 NodeRef (.file none "x" 5) (.file (some []) "x" 5) 1 true rfl rfl⟩
